import Mathlib

/-!
Verification of the caffe2 filler operators
(`caffe2/operators/filler_op.h`): shape resolution, construction-time
configuration checks, the fill strategies' parameter handling, and the
static shape-inference function `FillerTensorInference`.

Machine integers (`int`, `int32_t`, `TIndex`) are modelled as `Int`;
floating-point parameters (`float`, the numeric template parameter `T`)
are modelled as `ℚ`, with the square roots computed by the fill kernels
kept symbolic (see `ScaleExpr`).  The random/constant fill kernels
(`math::RandUniform`, `math::RandGaussian`, `math::Set`) are external
collaborators; a fill is therefore modelled by the exact kernel request
it issues (element count plus distribution parameters), not by sampled
values.
-/

namespace Caffe2

/-- Error taxonomy of the unit.  `CAFFE_THROW` / `CAFFE_ENFORCE` failures are
classified following the roles the checks play: configuration exclusivity
(`configurationError`), runtime rank checks (`shapeError`), an integer
division whose divisor is zero — a hardware fault in C++, modelled as an
explicit error (`divideByZeroError`) — and ConstantFill dtype resolution
failures (`typeError`). -/
inductive FillErr where
  | configurationError
  | shapeError
  | divideByZeroError
  | typeError
deriving DecidableEq, Repr

/-- Argument value of the `value` single argument of ConstantFill: the
argument proto stores either a float, an int64, or some other payload
(bytes/string), which is what `HasSingleArgumentOfType<float>` /
`HasSingleArgumentOfType<int64_t>` discriminate. -/
inductive ArgValue where
  | floatVal (x : ℚ)
  | intVal (x : Int)
  | otherVal
deriving DecidableEq, Repr

/-- Argument store of an `OperatorDef`, restricted to the keys the filler
operators read.  `GetRepeatedArgument` yields `[]` when the key is absent and
`GetSingleArgument<bool>("input_as_shape", false)` defaults to `false`, so
those two are stored already-defaulted; `dtype`, `value`, `min`, `max` keep
their presence bit because the code queries `HasArgument` or applies a
numeric default. -/
structure OperatorDef where
  shape : List Int
  extraShape : List Int
  inputAsShape : Bool
  dtype : Option Int
  value : Option ArgValue
  minArg : Option ℚ
  maxArg : Option ℚ
deriving DecidableEq, Repr

/-- Input tensor as the fillers see it: its dimensions (`dims()`, `ndim()`,
`dim32(i)`) and its element values read as integer index data
(`data<TIndex>()`). -/
structure Tensor where
  dims : List Int
  data : List Int
deriving DecidableEq, Repr

/-- Element count of a tensor with the given dimensions (`Tensor::size()`,
the product of the dimensions; external tensor contract). -/
def tensorSize (dims : List Int) : Int :=
  dims.prod

namespace FillerOp

/-- Construction-time checks of `FillerOp::FillerOp`: with an input present,
the `shape` argument must be unset; with no input, `extra_shape` must be
empty and `input_as_shape` must be false. -/
def ctorCheck (d : OperatorDef) (hasInput : Bool) : Except FillErr Unit :=
  if hasInput then
    if d.shape.length ≠ 0 then
      .error .configurationError
    else
      .ok ()
  else
    if ¬ d.extraShape.isEmpty then
      .error .configurationError
    else if d.inputAsShape then
      .error .configurationError
    else
      .ok ()

/-- Shape resolution of `FillerOp::RunOnDevice` (the argument of
`output->Resize`): with no input, the static `shape` argument; with an input
and `input_as_shape`, the input must be rank 1 (`CAFFE_ENFORCE_EQ`) and its
first `dim32(0)` data values become the shape; otherwise the input's own
dims.  `extra_shape` is appended in both input branches. -/
def resolveShape (d : OperatorDef) (input : Option Tensor) :
    Except FillErr (List Int) :=
  match input with
  | some t =>
      if d.inputAsShape then
        if t.dims.length ≠ 1 then
          .error .shapeError
        else
          .ok (t.data.take t.dims.headI.toNat ++ d.extraShape)
      else
        .ok (t.dims ++ d.extraShape)
  | none => .ok d.shape

end FillerOp

/-- Declared shape metadata used by the static inference pass
(`TensorShape` proto): a data type tag, declared dims, and the
`unknown_shape` flag (default false). -/
structure TensorShape where
  dataType : Int
  dims : List Int
  unknownShape : Bool
deriving DecidableEq, Repr

/-- Numeric value of `TensorProto_DataType_UNDEFINED` (caffe2.proto, external
to this header). -/
def TensorProto_DataType_UNDEFINED : Int := 0

/-- Numeric value of `TensorProto_DataType_FLOAT` (caffe2.proto). -/
def TensorProto_DataType_FLOAT : Int := 1

/-- Numeric value of `TensorProto_DataType_INT32` (caffe2.proto). -/
def TensorProto_DataType_INT32 : Int := 2

/-- Numeric value of `TensorProto_DataType_BOOL` (caffe2.proto). -/
def TensorProto_DataType_BOOL : Int := 5

/-- Numeric value of `TensorProto_DataType_INT64` (caffe2.proto). -/
def TensorProto_DataType_INT64 : Int := 10

/-- Static shape-inference function `FillerTensorInference`: one output
shape, data type from the `dtype` argument (default FLOAT); with an input
declared and `input_as_shape` set the output is flagged unknown, otherwise
the first input's declared dims are copied; with no input the `shape`
argument is copied.  (`extra_shape` is never consulted.) -/
def FillerTensorInference (d : OperatorDef) (inShapes : List TensorShape) :
    List TensorShape :=
  let dataType := d.dtype.getD TensorProto_DataType_FLOAT
  match inShapes with
  | t0 :: _ =>
      if d.inputAsShape then
        [{ dataType := dataType, dims := [], unknownShape := true }]
      else
        [{ dataType := dataType, dims := t0.dims, unknownShape := false }]
  | [] => [{ dataType := dataType, dims := d.shape, unknownShape := false }]

/-- Symbolic square-root expression: `sqrtDiv n d` stands for the value
`std::sqrt(T(n) / d)` the kernels receive (computed in floating point by the
caller of `RandUniform` / `RandGaussian`; kept symbolic here). -/
inductive ScaleExpr where
  | sqrtDiv (num : Int) (den : Int)
deriving DecidableEq, Repr

/-- Request issued to the external random kernel: which primitive is invoked
and with which distribution parameters. -/
inductive Rand where
  | uniform (lo hi : ℚ)
  | uniformNegPos (scale : ScaleExpr)
  | gaussian (mean std : ℚ)
  | gaussianSym (mean : ℚ) (std : ScaleExpr)
deriving DecidableEq, Repr

/-- Fill descriptor: the element count passed to the kernel together with the
requested distribution. -/
structure FillCall where
  count : Int
  rand : Rand
deriving DecidableEq, Repr

/-- Signed machine-integer division (`int / int` in C++, truncating toward
zero); a zero divisor is a hardware fault, surfaced as `divideByZeroError`. -/
def intDiv (a b : Int) : Except FillErr Int :=
  if b = 0 then .error .divideByZeroError else .ok (a.tdiv b)

namespace UniformFillOp

/-- Constructor of `UniformFillOp`: the `FillerOp` base constructor checks
run first, then `min` and `max` are read (defaults 0 and 1) and
`DCHECK_LT(min_, max_)` validates their order. -/
def ctor (d : OperatorDef) (hasInput : Bool) : Except FillErr (ℚ × ℚ) := do
  let _ ← FillerOp.ctorCheck d hasInput
  let mn := d.minArg.getD 0
  let mx := d.maxArg.getD 1
  if mn < mx then .ok (mn, mx) else .error .configurationError

/-- `UniformFillOp::Fill`: unconditionally request a uniform fill of all
elements in `[min, max)`; no check is performed here. -/
def fill (mn mx : ℚ) (dims : List Int) : Except FillErr FillCall :=
  .ok { count := tensorSize dims, rand := .uniform mn mx }

end UniformFillOp

namespace XavierFillOp

/-- `XavierFillOp::Fill`: `fan_in = size / dim32(0)` (machine integer
division), then a uniform fill in `[-scale, scale]` with
`scale = sqrt(3 / fan_in)` (the `uniformNegPos` request).
The `dim32` bounds requirement (rank at least 1) is modelled from the
external tensor contract as a `shapeError`. -/
def fill (dims : List Int) : Except FillErr FillCall :=
  if h : 0 < dims.length then do
    let fanIn ← intDiv (tensorSize dims) dims[0]
    .ok { count := tensorSize dims, rand := .uniformNegPos (.sqrtDiv 3 fanIn) }
  else
    .error .shapeError

end XavierFillOp

namespace MSRAFillOp

/-- `MSRAFillOp::Fill`: `fan_out = size / dim32(1)` (machine integer
division), then a Gaussian fill with mean 0 and standard deviation
`sqrt(2 / fan_out)`.  The `dim32(1)` bounds requirement (rank at least 2) is
modelled from the external tensor contract as a `shapeError`. -/
def fill (dims : List Int) : Except FillErr FillCall :=
  if h : 1 < dims.length then do
    let fanOut ← intDiv (tensorSize dims) dims[1]
    .ok { count := tensorSize dims,
          rand := .gaussianSym 0 (.sqrtDiv 2 fanOut) }
  else
    .error .shapeError

end MSRAFillOp

/-- Typed fill body bound by the ConstantFill constructor
(`&ConstantFillOp::FillWithType<T>` for `T` among float, int, bool,
int64_t). -/
inductive FillType where
  | float32
  | int32
  | boolType
  | int64
deriving DecidableEq, Repr

namespace ConstantFillOp

/-- Dtype resolution and body binding of `ConstantFillOp::ConstantFillOp`:
`dtype` is read with default FLOAT; when `dtype` is absent but `value` is
present, the type is inferred from the value's runtime type (float argument
gives FLOAT, int64 argument gives INT64, anything else throws); the switch
then binds the typed fill body for FLOAT, INT32, BOOL and INT64 and throws
for UNDEFINED and for every other value. -/
def resolveBody (d : OperatorDef) : Except FillErr FillType := do
  let dtypeDefault := d.dtype.getD TensorProto_DataType_FLOAT
  let dtype ←
    if d.dtype.isNone ∧ d.value.isSome then
      match d.value with
      | some (.floatVal _) => Except.ok TensorProto_DataType_FLOAT
      | some (.intVal _) => Except.ok TensorProto_DataType_INT64
      | _ => Except.error FillErr.typeError
    else
      Except.ok dtypeDefault
  if dtype = TensorProto_DataType_FLOAT then .ok .float32
  else if dtype = TensorProto_DataType_INT32 then .ok .int32
  else if dtype = TensorProto_DataType_BOOL then .ok .boolType
  else if dtype = TensorProto_DataType_INT64 then .ok .int64
  else if dtype = TensorProto_DataType_UNDEFINED then .error .typeError
  else .error .typeError

end ConstantFillOp

namespace LengthsRangeFillOp

/-- Model of `std::iota(first, first + n, v)` on a list buffer, where
`first` is the position `start`: write `v`, advance, repeat with `v + 1`.
An out-of-range position leaves the buffer unchanged (`List.set`); under the
bounds established by the caller every write lands. -/
def stdIota : List Int → Nat → Nat → Int → List Int
  | buf, _, 0, _ => buf
  | buf, start, n + 1, v => stdIota (buf.set start v) (start + 1) n (v + 1)

/-- Write loop of `LengthsRangeFillOp::RunOnDevice`: for each length, run
`std::iota` over `len` cells at the running offset and advance the offset by
`len`.  Lengths are `int32_t` values; a negative length (undefined behaviour
in the source) is clamped to an empty segment by `toNat`. -/
def writeLoop : List Int → Nat → List Int → List Int
  | buf, _, [] => buf
  | buf, offset, len :: rest =>
      writeLoop (stdIota buf offset len.toNat 0) (offset + len.toNat) rest

/-- `LengthsRangeFillOp::RunOnDevice`: the input must be rank 1
(`CAFFE_ENFORCE_EQ`); the output is resized to
`len_sum = std::accumulate(input_data, input_data + size, 0)` elements
(fresh storage, modelled as zero-initialised) and filled by the per-segment
`std::iota` loop. -/
def run (t : Tensor) : Except FillErr (List Int) :=
  if t.dims.length ≠ 1 then
    .error .shapeError
  else
    let lenSum := t.data.foldl (fun a b => a + b) 0
    let buf := List.replicate lenSum.toNat (0 : Int)
    .ok (writeLoop buf 0 t.data)

end LengthsRangeFillOp

end Caffe2

namespace Caffe2

/-- Helper: the `FillerOp` constructor checks either pass or fail with a
configuration error; no other outcome exists. -/
theorem FillerOp.ctorCheck_cases (d : OperatorDef) (hasInput : Bool) :
    FillerOp.ctorCheck d hasInput = .ok () ∨
    FillerOp.ctorCheck d hasInput = .error .configurationError := by
  unfold FillerOp.ctorCheck
  cases hasInput <;> split_ifs <;> simp

/-- C4: `FillerOp` construction fails with `ConfigurationError` in exactly
the three mutually-exclusive-configuration cases — an input present with a
non-empty `shape` argument, no input with a non-empty `extra_shape`, and no
input with `input_as_shape` true — and the checks pass in every other
configuration. -/
theorem fillerOp_ctor_exclusivity (d : OperatorDef) (hasInput : Bool) :
    (FillerOp.ctorCheck d hasInput = .error .configurationError ↔
      (hasInput = true ∧ d.shape ≠ []) ∨
      (hasInput = false ∧ d.extraShape ≠ []) ∨
      (hasInput = false ∧ d.inputAsShape = true)) ∧
    (FillerOp.ctorCheck d hasInput = .ok () ↔
      ¬ ((hasInput = true ∧ d.shape ≠ []) ∨
        (hasInput = false ∧ d.extraShape ≠ []) ∨
        (hasInput = false ∧ d.inputAsShape = true))) := by
  unfold FillerOp.ctorCheck
  cases hasInput <;> split_ifs <;>
    simp_all [List.isEmpty_iff, List.length_eq_zero]

/-- C3: with an input present and `input_as_shape` true, shape resolution
requires the input to be exactly rank 1 and fails with `ShapeError`
otherwise; a rank-1 input holding its declared number of elements resolves
to its element values with `extra_shape` appended. -/
theorem resolve_input_as_shape (d : OperatorDef) (t : Tensor)
    (hmode : d.inputAsShape = true) :
    (t.dims.length ≠ 1 →
      FillerOp.resolveShape d (some t) = .error .shapeError) ∧
    (∀ n : Int, t.dims = [n] → t.data.length = n.toNat →
      FillerOp.resolveShape d (some t) = .ok (t.data ++ d.extraShape)) := by
  constructor
  · intro h
    simp [FillerOp.resolveShape, hmode, h]
  · intro n hd hlen
    simp only [FillerOp.resolveShape, hmode, if_true, hd]
    rw [if_neg (by simp)]
    simp only [List.headI]
    rw [← hlen, List.take_length]

/-- C3 witness: a concrete rank-1 input `[3, 4]` with `extra_shape = [5]`
resolves to `[3, 4, 5]`, and a concrete rank-2 input fails with a shape
error. -/
theorem resolve_input_as_shape_witness :
    FillerOp.resolveShape
      { shape := [], extraShape := [5], inputAsShape := true, dtype := none,
        value := none, minArg := none, maxArg := none }
      (some { dims := [2], data := [3, 4] }) = .ok [3, 4, 5] ∧
    FillerOp.resolveShape
      { shape := [], extraShape := [5], inputAsShape := true, dtype := none,
        value := none, minArg := none, maxArg := none }
      (some { dims := [2, 2], data := [3, 4, 3, 4] }) =
      .error .shapeError := by
  constructor
  · exact (resolve_input_as_shape _ _ rfl).2 2 rfl rfl
  · exact (resolve_input_as_shape _ _ rfl).1 (by decide)

/-- C8: with an input declared and `input_as_shape` true, the static
inference function reports the single output shape as unknown rather than a
concrete shape, whatever the declared input shape is. -/
theorem inference_input_as_shape_unknown (d : OperatorDef)
    (t0 : TensorShape) (rest : List TensorShape)
    (hmode : d.inputAsShape = true) :
    FillerTensorInference d (t0 :: rest) =
      [{ dataType := d.dtype.getD TensorProto_DataType_FLOAT, dims := [],
         unknownShape := true }] := by
  simp [FillerTensorInference, hmode]

/-- C8 witness: a concrete declared input shape `[7, 7]` with
`input_as_shape` true infers an unknown output shape. -/
theorem inference_input_as_shape_unknown_witness :
    FillerTensorInference
      { shape := [], extraShape := [], inputAsShape := true, dtype := none,
        value := none, minArg := none, maxArg := none }
      [{ dataType := 1, dims := [7, 7], unknownShape := false }] =
      [{ dataType := 1, dims := [], unknownShape := true }] :=
  inference_input_as_shape_unknown _ _ _ rfl

end Caffe2

namespace Caffe2

/-- C5: a Xavier or MSRA fill whose divisor dimension (the first dimension
for Xavier, the second for MSRA) is zero at run time fails with
`DivideByZeroError` rather than proceeding to the random kernel. -/
theorem xavier_msra_divide_by_zero (dims : List Int) :
    (∀ h : 0 < dims.length, dims[0] = 0 →
      XavierFillOp.fill dims = .error .divideByZeroError) ∧
    (∀ h : 1 < dims.length, dims[1] = 0 →
      MSRAFillOp.fill dims = .error .divideByZeroError) := by
  constructor
  · intro h hz
    simp [XavierFillOp.fill, h, intDiv, hz]
    rfl
  · intro h hz
    simp [MSRAFillOp.fill, h, intDiv, hz]
    rfl

/-- C5 witness: Xavier on shape `[0, 3]` and MSRA on shape `[3, 0]` both
fail with the divide-by-zero error. -/
theorem xavier_msra_divide_by_zero_witness :
    XavierFillOp.fill [0, 3] = .error .divideByZeroError ∧
    MSRAFillOp.fill [3, 0] = .error .divideByZeroError := by
  constructor
  · exact (xavier_msra_divide_by_zero [0, 3]).1 (by decide) (by decide)
  · exact (xavier_msra_divide_by_zero [3, 0]).2 (by decide) (by decide)

/-- C6: constructing a `UniformFillOp` with effective `min >= max` fails,
and the check lives in the constructor only — `UniformFillOp::Fill` performs
no check and unconditionally issues the uniform kernel request over all
elements. -/
theorem uniform_min_max_construction :
    (∀ (d : OperatorDef) (hasInput : Bool),
      d.maxArg.getD 1 ≤ d.minArg.getD 0 →
      UniformFillOp.ctor d hasInput = .error .configurationError) ∧
    (∀ (mn mx : ℚ) (dims : List Int),
      UniformFillOp.fill mn mx dims =
        .ok { count := tensorSize dims, rand := .uniform mn mx }) := by
  constructor
  · intro d hasInput hle
    unfold UniformFillOp.ctor
    rcases FillerOp.ctorCheck_cases d hasInput with h | h <;> rw [h]
    · simp [not_lt.mpr hle]
      rfl
    · rfl
  · intro mn mx dims
    rfl

/-- C6 witness: constructing with `min = 2` and `max = 1` fails, while the
fill function on shape `[2, 2]` issues the plain uniform request. -/
theorem uniform_min_max_construction_witness :
    UniformFillOp.ctor
      { shape := [3], extraShape := [], inputAsShape := false, dtype := none,
        value := none, minArg := some 2, maxArg := some 1 } false =
      .error .configurationError ∧
    UniformFillOp.fill 0 1 [2, 2] =
      .ok { count := 4, rand := .uniform 0 1 } := by
  constructor
  · exact uniform_min_max_construction.1 _ false (by norm_num)
  · exact uniform_min_max_construction.2 0 1 [2, 2]

/-- C7: on an output of rank at least 2 with a non-zero second dimension,
the MSRA fill requests a Gaussian fill of all elements with mean 0 and
standard deviation `sqrt(2 / fan_out)`, where `fan_out` is the machine
integer division of the element count by the second dimension. -/
theorem msra_gaussian_scale (dims : List Int) (h : 1 < dims.length)
    (hz : dims[1] ≠ 0) :
    MSRAFillOp.fill dims =
      .ok { count := tensorSize dims,
            rand := .gaussianSym 0
              (.sqrtDiv 2 ((tensorSize dims).tdiv dims[1])) } := by
  simp [MSRAFillOp.fill, h, intDiv, hz]
  rfl

/-- C7 witness: MSRA on shape `[4, 2]` (8 elements, second dimension 2)
requests Gaussian(0, sqrt(2 / 4)). -/
theorem msra_gaussian_scale_witness :
    MSRAFillOp.fill [4, 2] =
      .ok { count := 8, rand := .gaussianSym 0 (.sqrtDiv 2 4) } := by
  have h := msra_gaussian_scale [4, 2] (by decide) (by decide)
  simpa using h

/-- C10: with an explicit `dtype` argument, ConstantFill construction binds
the float32, int32, bool or int64 fill body for exactly those four dtype
values and raises for every other value, the UNDEFINED sentinel included. -/
theorem constantFill_explicit_dtype (d : OperatorDef) (t : Int)
    (h : d.dtype = some t) :
    ConstantFillOp.resolveBody d =
      (if t = TensorProto_DataType_FLOAT then .ok .float32
       else if t = TensorProto_DataType_INT32 then .ok .int32
       else if t = TensorProto_DataType_BOOL then .ok .boolType
       else if t = TensorProto_DataType_INT64 then .ok .int64
       else .error .typeError) := by
  have hdef : ConstantFillOp.resolveBody d =
      (if t = TensorProto_DataType_FLOAT then .ok .float32
       else if t = TensorProto_DataType_INT32 then .ok .int32
       else if t = TensorProto_DataType_BOOL then .ok .boolType
       else if t = TensorProto_DataType_INT64 then .ok .int64
       else if t = TensorProto_DataType_UNDEFINED then .error .typeError
       else .error .typeError) := by
    unfold ConstantFillOp.resolveBody
    rw [h]
    rfl
  rw [hdef]
  split_ifs <;> rfl

/-- C10 witness: explicit `dtype = BOOL` (5) binds the bool body; explicit
`dtype = UNDEFINED` (0) and the unsupported value 4 (STRING) raise. -/
theorem constantFill_explicit_dtype_witness :
    ConstantFillOp.resolveBody
      { shape := [2], extraShape := [], inputAsShape := false,
        dtype := some 5, value := none, minArg := none, maxArg := none } =
      .ok .boolType ∧
    ConstantFillOp.resolveBody
      { shape := [2], extraShape := [], inputAsShape := false,
        dtype := some 0, value := none, minArg := none, maxArg := none } =
      .error .typeError ∧
    ConstantFillOp.resolveBody
      { shape := [2], extraShape := [], inputAsShape := false,
        dtype := some 4, value := none, minArg := none, maxArg := none } =
      .error .typeError := by
  refine ⟨?_, ?_, ?_⟩
  · exact constantFill_explicit_dtype _ 5 rfl
  · exact constantFill_explicit_dtype _ 0 rfl
  · exact constantFill_explicit_dtype _ 4 rfl

end Caffe2

namespace Caffe2

/-- Specification-side statement of ConstantFill dtype resolution, written
from the spec's words as amended: an explicit `dtype` wins (binding one of
the four supported bodies, with the UNDEFINED sentinel and every unsupported
value rejected); otherwise a present `value` argument determines the type
(float gives float32, int64 gives int64, any other payload is a type
error); with neither argument present the type defaults to float32. -/
def constantFillDtypeSpec (d : OperatorDef) : Except FillErr FillType :=
  match d.dtype with
  | some t =>
      if t = TensorProto_DataType_FLOAT then .ok .float32
      else if t = TensorProto_DataType_INT32 then .ok .int32
      else if t = TensorProto_DataType_BOOL then .ok .boolType
      else if t = TensorProto_DataType_INT64 then .ok .int64
      else .error .typeError
  | none =>
      match d.value with
      | some (.floatVal _) => .ok .float32
      | some (.intVal _) => .ok .int64
      | some .otherVal => .error .typeError
      | none => .ok .float32

/-- C2 counterexample: with neither a `dtype` argument nor a `value`
argument, ConstantFill construction succeeds with the float32 body (the
FLOAT default) instead of failing with `TypeError` as the claim states for
configurations where neither source is determinable. -/
theorem constantFill_no_args_defaults_float :
    ConstantFillOp.resolveBody
      { shape := [2], extraShape := [], inputAsShape := false, dtype := none,
        value := none, minArg := none, maxArg := none } =
      .ok .float32 :=
  rfl

/-- C2 (amended): ConstantFill resolves its element type once at
construction — explicit `dtype` wins; otherwise a present `value` argument
is inferred from its runtime type (float gives float32, int64 gives int64)
and fails with `TypeError` on any other payload; an explicit UNDEFINED
`dtype` fails; and with neither argument present the type defaults to
float32 rather than failing. -/
theorem constantFill_dtype_resolution (d : OperatorDef) :
    ConstantFillOp.resolveBody d = constantFillDtypeSpec d := by
  rcases d with ⟨shape, extra, ias, dtype, value, mn, mx⟩
  cases dtype with
  | some t =>
      have hdef : ConstantFillOp.resolveBody
          ⟨shape, extra, ias, some t, value, mn, mx⟩ =
          (if t = TensorProto_DataType_FLOAT then .ok .float32
           else if t = TensorProto_DataType_INT32 then .ok .int32
           else if t = TensorProto_DataType_BOOL then .ok .boolType
           else if t = TensorProto_DataType_INT64 then .ok .int64
           else if t = TensorProto_DataType_UNDEFINED then .error .typeError
           else .error .typeError) := rfl
      have hspec : constantFillDtypeSpec
          ⟨shape, extra, ias, some t, value, mn, mx⟩ =
          (if t = TensorProto_DataType_FLOAT then .ok .float32
           else if t = TensorProto_DataType_INT32 then .ok .int32
           else if t = TensorProto_DataType_BOOL then .ok .boolType
           else if t = TensorProto_DataType_INT64 then .ok .int64
           else .error .typeError) := rfl
      rw [hdef, hspec]
      split_ifs <;> rfl
  | none =>
      cases value with
      | none => rfl
      | some v => cases v <;> rfl

end Caffe2

namespace Caffe2

/-- C1 counterexample: with an input present, `input_as_shape` false and
`extra_shape = [2]`, the runtime resolver appends the extra shape to the
input dims `[3]` and produces `[3, 2]`, but `FillerTensorInference` reports
the output dims as `[3]` — not the shape the runtime path produces. -/
theorem inference_extra_shape_counterexample :
    (FillerTensorInference
        { shape := [], extraShape := [2], inputAsShape := false,
          dtype := none, value := none, minArg := none, maxArg := none }
        [{ dataType := 1, dims := [3], unknownShape := false }]).map
      TensorShape.dims = [[3]] ∧
    FillerOp.resolveShape
      { shape := [], extraShape := [2], inputAsShape := false, dtype := none,
        value := none, minArg := none, maxArg := none }
      (some { dims := [3], data := [0, 0, 0] }) = .ok [3, 2] ∧
    [[(3 : Int)]] ≠ [[3, 2]] := by
  refine ⟨rfl, rfl, ?_⟩
  decide

/-- C1 (amended): the pure shape-inference function agrees with the runtime
resolver in the no-input branch (both return `config.shape`); in the
input-present, `input_as_shape` false branch it returns the input's declared
dims without appending `extra_shape`, so it matches the runtime resolver
exactly when `extra_shape` is empty. -/
theorem inference_matches_runtime (d : OperatorDef) (t : Tensor)
    (ts : TensorShape) (rest : List TensorShape)
    (hmode : d.inputAsShape = false) (hdims : ts.dims = t.dims) :
    ((FillerTensorInference d []).map TensorShape.dims = [d.shape] ∧
      FillerOp.resolveShape d none = .ok d.shape) ∧
    ((FillerTensorInference d (ts :: rest)).map TensorShape.dims = [t.dims] ∧
      (d.extraShape = [] →
        FillerOp.resolveShape d (some t) = .ok t.dims)) := by
  refine ⟨⟨?_, rfl⟩, ?_, ?_⟩
  · simp [FillerTensorInference]
  · simp [FillerTensorInference, hmode, hdims]
  · intro hextra
    simp [FillerOp.resolveShape, hmode, hextra]

/-- C1 witness: with `extra_shape` empty, a declared input shape `[4, 5]`
infers dims `[4, 5]` and the runtime resolver returns the same shape; with
no input, both return the static shape argument `[6]`. -/
theorem inference_matches_runtime_witness :
    (FillerTensorInference
        { shape := [6], extraShape := [], inputAsShape := false,
          dtype := none, value := none, minArg := none, maxArg := none }
        []).map TensorShape.dims = [[6]] ∧
    FillerOp.resolveShape
      { shape := [6], extraShape := [], inputAsShape := false, dtype := none,
        value := none, minArg := none, maxArg := none } none = .ok [6] ∧
    (FillerTensorInference
        { shape := [6], extraShape := [], inputAsShape := false,
          dtype := none, value := none, minArg := none, maxArg := none }
        [{ dataType := 1, dims := [4, 5], unknownShape := false }]).map
      TensorShape.dims = [[4, 5]] ∧
    FillerOp.resolveShape
      { shape := [6], extraShape := [], inputAsShape := false, dtype := none,
        value := none, minArg := none, maxArg := none }
      (some { dims := [4, 5], data := [] }) = .ok [4, 5] := by
  have h := inference_matches_runtime
    { shape := [6], extraShape := [], inputAsShape := false, dtype := none,
      value := none, minArg := none, maxArg := none }
    { dims := [4, 5], data := [] }
    { dataType := 1, dims := [4, 5], unknownShape := false } [] rfl rfl
  exact ⟨h.1.1, h.1.2, h.2.1, h.2.2 rfl⟩

end Caffe2

namespace Caffe2

namespace LengthsRangeFillOp

/-- Values `v, v+1, ..., v+n-1` written by one `std::iota` segment. -/
def iotaVals : Nat → Int → List Int
  | 0, _ => []
  | n + 1, v => v :: iotaVals n (v + 1)

theorem iotaVals_length (n : Nat) : ∀ v : Int, (iotaVals n v).length = n := by
  induction n with
  | zero => intro v; rfl
  | succ n ih =>
      intro v
      show (v :: iotaVals n (v + 1)).length = n + 1
      rw [List.length_cons, ih]

theorem iotaVals_eq_range_map (n : Nat) : ∀ v : Int,
    iotaVals n v = (List.range n).map (fun j : Nat => v + (j : Int)) := by
  induction n with
  | zero => intro v; rfl
  | succ n ih =>
      intro v
      rw [List.range_succ_eq_map]
      show v :: iotaVals n (v + 1) = _
      rw [ih (v + 1)]
      simp only [List.map_cons, Nat.cast_zero, add_zero, List.map_map]
      have hf : ((fun j : Nat => v + (j : Int)) ∘ Nat.succ) =
          fun j : Nat => v + 1 + (j : Int) := by
        funext j
        simp only [Function.comp, Nat.succ_eq_add_one]
        push_cast
        ring
      rw [hf]

theorem stdIota_cons (n : Nat) : ∀ (x : Int) (buf : List Int) (start : Nat)
    (v : Int), stdIota (x :: buf) (start + 1) n v = x :: stdIota buf start n v := by
  induction n with
  | zero => intro x buf start v; rfl
  | succ n ih =>
      intro x buf start v
      show stdIota ((x :: buf).set (start + 1) v) (start + 1 + 1) n (v + 1) =
        x :: stdIota (buf.set start v) (start + 1) n (v + 1)
      rw [List.set_cons_succ, ih]

theorem stdIota_start_zero (n : Nat) : ∀ (buf : List Int) (v : Int),
    n ≤ buf.length → stdIota buf 0 n v = iotaVals n v ++ buf.drop n := by
  induction n with
  | zero => intro buf v h; simp [stdIota, iotaVals]
  | succ n ih =>
      intro buf v h
      cases buf with
      | nil => simp at h
      | cons b bs =>
          show stdIota ((b :: bs).set 0 v) (0 + 1) n (v + 1) = _
          rw [List.set_cons_zero, stdIota_cons, ih bs (v + 1)
            (by simpa using Nat.succ_le_succ_iff.mp (by simpa using h))]
          rfl

theorem stdIota_append (pre : List Int) : ∀ (buf : List Int) (n : Nat)
    (v : Int), stdIota (pre ++ buf) pre.length n v = pre ++ stdIota buf 0 n v := by
  induction pre with
  | nil => intro buf n v; rfl
  | cons x pre ih =>
      intro buf n v
      show stdIota (x :: (pre ++ buf)) (pre.length + 1) n v =
        x :: (pre ++ stdIota buf 0 n v)
      rw [stdIota_cons, ih]

theorem writeLoop_append : ∀ (lens : List Int) (pre buf : List Int),
    (lens.map Int.toNat).sum ≤ buf.length →
    writeLoop (pre ++ buf) pre.length lens = pre ++ writeLoop buf 0 lens := by
  intro lens
  induction lens with
  | nil => intro pre buf h; rfl
  | cons len rest ih =>
      intro pre buf h
      simp only [List.map_cons, List.sum_cons] at h
      have hlen : len.toNat ≤ buf.length := by omega
      have hrest : (rest.map Int.toNat).sum ≤ (buf.drop len.toNat).length := by
        rw [List.length_drop]
        omega
      show writeLoop (stdIota (pre ++ buf) pre.length len.toNat 0)
          (pre.length + len.toNat) rest = pre ++
          writeLoop (stdIota buf 0 len.toNat 0) (0 + len.toNat) rest
      rw [stdIota_append, stdIota_start_zero len.toNat buf 0 hlen,
        Nat.zero_add]
      have happ1 := ih (iotaVals len.toNat 0) (buf.drop len.toNat) hrest
      rw [iotaVals_length] at happ1
      have happ2 := ih (pre ++ iotaVals len.toNat 0) (buf.drop len.toNat) hrest
      rw [List.length_append, iotaVals_length, List.append_assoc] at happ2
      rw [happ1, happ2, List.append_assoc]

theorem writeLoop_closed : ∀ (lens : List Int) (buf : List Int),
    buf.length = (lens.map Int.toNat).sum →
    writeLoop buf 0 lens = lens.flatMap fun len => iotaVals len.toNat 0 := by
  intro lens
  induction lens with
  | nil =>
      intro buf h
      simp only [List.map_nil, List.sum_nil, List.length_eq_zero] at h
      rw [h]
      rfl
  | cons len rest ih =>
      intro buf h
      simp only [List.map_cons, List.sum_cons] at h
      have hlen : len.toNat ≤ buf.length := by omega
      have hrest : (buf.drop len.toNat).length = (rest.map Int.toNat).sum := by
        rw [List.length_drop]
        omega
      show writeLoop (stdIota buf 0 len.toNat 0) (0 + len.toNat) rest = _
      rw [stdIota_start_zero len.toNat buf 0 hlen, Nat.zero_add]
      have happ := writeLoop_append rest (iotaVals len.toNat 0)
        (buf.drop len.toNat) (le_of_eq hrest.symm)
      rw [iotaVals_length] at happ
      rw [happ, ih (buf.drop len.toNat) hrest, List.flatMap_cons]

theorem sum_toNat : ∀ l : List Int, (∀ x ∈ l, 0 ≤ x) →
    l.sum.toNat = (l.map Int.toNat).sum := by
  intro l
  induction l with
  | nil => intro _; rfl
  | cons x xs ih =>
      intro hnn
      simp only [List.sum_cons, List.map_cons]
      rw [Int.toNat_add (hnn x (List.mem_cons_self x xs))
        (List.sum_nonneg fun a ha => hnn a (List.mem_cons_of_mem x ha)),
        ih fun a ha => hnn a (List.mem_cons_of_mem x ha)]

theorem foldl_add_toNat (l : List Int) (hnn : ∀ x ∈ l, 0 ≤ x) :
    (l.foldl (fun a b => a + b) 0).toNat = (l.map Int.toNat).sum := by
  rw [show l.foldl (fun a b => a + b) 0 = l.sum from List.sum_eq_foldl.symm,
    sum_toNat l hnn]

end LengthsRangeFillOp

end Caffe2

namespace Caffe2

/-- C9: for a rank-1 input of non-negative lengths, `LengthsRangeFillOp`
resizes its output to `sum(lengths)` elements and the result is, for each
input element with value `len`, the `len` consecutive integers `0..len-1`
written at the running offset — i.e. the concatenation of the per-segment
iotas. -/
theorem lengthsRangeFill_correct (t : Tensor) (hrank : t.dims.length = 1)
    (hnn : ∀ l ∈ t.data, 0 ≤ l) :
    LengthsRangeFillOp.run t =
      .ok (t.data.flatMap fun len =>
        (List.range len.toNat).map (fun j : Nat => (j : Int))) ∧
    (t.data.flatMap fun len =>
        (List.range len.toNat).map (fun j : Nat => (j : Int))).length =
      (t.data.map Int.toNat).sum := by
  constructor
  · unfold LengthsRangeFillOp.run
    rw [if_neg (by omega)]
    show Except.ok (LengthsRangeFillOp.writeLoop
      (List.replicate (t.data.foldl (fun a b => a + b) 0).toNat 0) 0 t.data) = _
    have hbuf : (List.replicate
        (t.data.foldl (fun a b => a + b) 0).toNat (0 : Int)).length =
        (t.data.map Int.toNat).sum := by
      rw [List.length_replicate, LengthsRangeFillOp.foldl_add_toNat t.data hnn]
    rw [LengthsRangeFillOp.writeLoop_closed t.data _ hbuf]
    have hfun : (fun len : Int => LengthsRangeFillOp.iotaVals len.toNat 0) =
        fun len : Int => (List.range len.toNat).map
          (fun j : Nat => (j : Int)) := by
      funext len
      rw [LengthsRangeFillOp.iotaVals_eq_range_map]
      simp
    rw [hfun]
  · rw [List.length_flatMap]
    simp [Function.comp_def]

/-- C9 witness: input lengths `[2, 0, 3]` (rank 1) produce the output
`[0, 1, 0, 1, 2]` of length `5 = 2 + 0 + 3`. -/
theorem lengthsRangeFill_correct_witness :
    LengthsRangeFillOp.run { dims := [3], data := [2, 0, 3] } =
      .ok [0, 1, 0, 1, 2] ∧ ([0, 1, 0, 1, 2] : List Int).length = 5 := by
  have h := lengthsRangeFill_correct { dims := [3], data := [2, 0, 3] }
    (by decide) (by decide)
  exact ⟨h.1.trans (by rfl), rfl⟩

end Caffe2
